import Mathlib

/-!
# Hybrid-overlay node controller

A shallow embedding of `go-controller/hybrid-overlay/pkg/controller/node.go`:
the change predicates `nodeChanged` and `podChanged`, the identity resolution
functions `getNodeSubnetAndIP`, `getNodeDetails` and `getPodDetails`, and the
event callbacks that `NewNode` registers.

The functions of other packages that `node.go` calls (`net`, `util`, `houtil`,
`hotypes`, `ovntypes`) are not part of the file.  They are collected in the
record `Env`, and every general theorem holds for all values of that record.
A reference value `goEnv` is given further down; it is used for the worked
examples only.
-/

set_option autoImplicit false

namespace HybridOverlay

/-! ## Data model -/

/-- A Go `[]byte`.  `none` is the nil slice and `some bs` a non-nil slice with
the bytes `bs`; `reflect.DeepEqual` tells the two apart even when `bs = []`. -/
abbrev Bytes := Option (List Nat)

namespace net

/-- Go `net.IP`, a byte slice; the nil slice is "no address". -/
abbrev IP := Bytes

/-- Go `net.IPMask`. -/
abbrev IPMask := Bytes

/-- Go `net.HardwareAddr`. -/
abbrev HardwareAddr := Bytes

/-- Go `net.IPNet`: an address and a mask, both byte slices. -/
structure IPNet where
  IP : IP
  Mask : IPMask
  deriving DecidableEq, Repr

end net

/-- Go `reflect.DeepEqual` on the values this file compares with it: byte
slices, `*net.IPNet` and strings.  Two pointers are deeply equal when both are
nil or both point to deeply equal structs, two slices when both are nil or both
are non-nil with equal elements; on the modelled values this is equality. -/
def reflect.DeepEqual {α : Type} [DecidableEq α] (a b : α) : Bool :=
  decide (a = b)

/-- A Go `map[string]string`, seen through key lookup (`v, ok := m[k]`). -/
abbrev StringMap := String → Option String

/-- Go `m[k]` without the `ok` result: the zero value `""` for a missing key. -/
def StringMap.index (m : StringMap) (k : String) : String :=
  (m k).getD ""

/-- Writes `m[k] = v`. -/
def StringMap.set (m : StringMap) (k v : String) : StringMap :=
  fun k' => if k' = k then some v else m k'

/-- A `corev1.NodeAddress`; `AddrType` is the Go field `Type`. -/
structure NodeAddress where
  AddrType : String
  Address : String
  deriving DecidableEq, Repr

/-- The fields of a `corev1.Node` that the controller or its helpers read:
`ObjectMeta.Name`, `ObjectMeta.Labels`, `ObjectMeta.Annotations` and
`Status.Addresses`. -/
structure Node where
  Name : String
  Labels : StringMap
  Annotations : StringMap
  Addresses : List NodeAddress

/-- The fields of a `corev1.Pod` that the controller reads: `ObjectMeta.Name`,
`ObjectMeta.Annotations` and `Spec.NodeName`. -/
structure Pod where
  Name : String
  Annotations : StringMap
  NodeName : String

/-- What an informer callback receives as `obj interface{}`. -/
inductive Obj where
  | node (n : Node)
  | pod (p : Pod)
  | other

/-- A Go `error` value that is not nil: either an error handed over unchanged
from a library call (with its message), or one built by `fmt.Errorf`, kept as
the format string and its operands. -/
inductive Error where
  | lib (msg : String)
  | Errorf (format : String) (operands : List String)
  deriving DecidableEq, Repr

/-- Modelled from the spec: the record `util.UnmarshalPodAnnotation` decodes
(type `util.PodAnnotation`, declared outside this file); of its fields the
controller reads `IPs` and `MAC`.  The spec gives the decoded identity as
"{ ips: ordered sequence of (IPAddress, prefix), mac: MACAddress }", and the
decoder fails when it cannot produce it, so `MAC` holds the parsed bytes.
`IPs` is a `[]*net.IPNet`; only `len` and indexing are applied to it. -/
structure PodAnnotation where
  IPs : List (Option net.IPNet)
  MAC : List Nat
  deriving DecidableEq, Repr

/-- The constants and functions of other packages that `node.go` uses.

* `DefaultNetworkName` is `ovntypes.DefaultNetworkName`; the three
  `HybridOverlay…` fields are the annotation keys of package `hotypes`;
  `OvnNodeSubnets` is the key of the primary-network host-subnet annotation.
* `ParseCIDR`, `ParseIP`, `ParseMAC` are the functions of Go package `net`.
  `ParseCIDR` and `ParseMAC` return a value and an `error`; the value is
  non-nil exactly when the error is nil, which is the `Except` here.
  `ParseIP` returns nil for a text that is no IP address.
* `IPNetString` is the method `(*net.IPNet).String`.
* `decodeNodeSubnets value netName` decodes the text of the primary-network
  host-subnet annotation for one network: `[]` stands for the nil slice
  (nothing decoded), any other list for the decoded subnets.
* `NoHostSubnet` is `util.NoHostSubnet`.
* `UnmarshalPodAnnotation` is `util.UnmarshalPodAnnotation`. -/
structure Env where
  DefaultNetworkName : String
  HybridOverlayNodeSubnet : String
  HybridOverlayDRMAC : String
  HybridOverlayDRIP : String
  OvnNodeSubnets : String
  ParseCIDR : String → Except String (List Nat × net.IPNet)
  ParseIP : String → net.IP
  ParseMAC : String → Except String (List Nat)
  IPNetString : Option net.IPNet → String
  decodeNodeSubnets : String → String → List (Option net.IPNet)
  NoHostSubnet : Node → Bool
  UnmarshalPodAnnotation : StringMap → String → Except String PodAnnotation

/-! ## Helpers of package `util` and `houtil` -/

/-- Modelled from the spec: `util.ParseNodeHostSubnetAnnotation` is declared
outside this file.  Spec, step 1 of node subnet resolution: "attempt to read a
primary-network host-subnet annotation (structured, may encode multiple subnets
for dual-stack); if present, take the first entry as the subnet."  The result
is the nil slice (here `[]`) when the annotation is absent or yields nothing
for the network, and the decoded subnets otherwise. -/
def ParseNodeHostSubnetAnnotation (env : Env) (node : Node) (netName : String) :
    List (Option net.IPNet) :=
  match node.Annotations env.OvnNodeSubnets with
  | none => []
  | some value => env.decodeNodeSubnets value netName

/-- Modelled from the spec: `houtil.GetNodeInternalIP` is declared outside this
file.  Spec, step 4: "resolve the node's internal IP address via a best-effort
lookup over the node's reported addresses"; the comment on `getNodeSubnetAndIP`
calls the result "the node's first InternalIP".  The address text is returned
as reported, and an error when the node reports no address of that type. -/
def GetNodeInternalIP (node : Node) : Except String String :=
  match node.Addresses.find? (fun addr => addr.AddrType = "InternalIP") with
  | some addr => .ok addr.Address
  | none => .error ("failed to read node " ++ node.Name ++ " InternalIP")

/-! ## `node.go` -/

/-- Lines 223-229 of `getNodeSubnetAndIP`: the internal IP of the node is
looked up and parsed, once the subnet `cidr` has been found. -/
def getNodeSubnetAndIP.withNodeIP (env : Env) (node : Node) (cidr : Option net.IPNet) :
    Option net.IPNet × net.IP :=
  match GetNodeInternalIP node with
  | .error _ => (none, none)
  | .ok nodeIP => (cidr, env.ParseIP nodeIP)

/-- `getNodeSubnetAndIP` returns the node's hybrid overlay subnet and the
node's first InternalIP, or nil if the subnet or node IP is invalid.  The
test `cidrs != nil` is the match on a list that is not `[]`, and `cidrs[0]`
its first entry.  Log calls are left out. -/
def getNodeSubnetAndIP (env : Env) (node : Node) : Option net.IPNet × net.IP :=
  match ParseNodeHostSubnetAnnotation env node env.DefaultNetworkName with
  | cidr :: _ => getNodeSubnetAndIP.withNodeIP env node cidr
  | [] =>
    match node.Annotations env.HybridOverlayNodeSubnet with
    | none => (none, none)
    | some subnet =>
      match env.ParseCIDR subnet with
      | .error _ => (none, none)
      | .ok (_, cidr) => getNodeSubnetAndIP.withNodeIP env node (some cidr)

/-- `getNodeDetails` returns the node's hybrid overlay subnet, first
InternalIP, and the distributed router MAC, or nil values and an error. -/
def getNodeDetails (env : Env) (node : Node) :
    Option net.IPNet × net.IP × net.HardwareAddr × Option Error :=
  let (cidr, ip) := getNodeSubnetAndIP env node
  if cidr = none ∨ ip = none then
    (none, none, none, some (.Errorf "missing node subnet and/or node IP" []))
  else
    match node.Annotations env.HybridOverlayDRMAC with
    | none =>
      (none, none, none, some (.Errorf "missing distributed router MAC annotation" []))
    | some drMACString =>
      match env.ParseMAC drMACString with
      | .error err =>
        (none, none, none,
          some (.Errorf "invalid distributed router MAC %q: %v" [drMACString, err]))
      | .ok drMAC => (cidr, ip, some drMAC, none)

/-- `getPodDetails`: the IPs and the MAC of the pod's annotation for the
default network, or nil values and the decoder's error. -/
def getPodDetails (env : Env) (pod : Pod) :
    List (Option net.IPNet) × net.HardwareAddr × Option Error :=
  match env.UnmarshalPodAnnotation pod.Annotations env.DefaultNetworkName with
  | .error err => ([], none, some (.lib err))
  | .ok podInfo => (podInfo.IPs, some podInfo.MAC, none)

/-- `nodeChanged`, on the two `*corev1.Node` values behind `old` and `new`. -/
def nodeChanged (env : Env) (oldNode newNode : Node) : Bool :=
  let (oldCidr, oldNodeIP, oldDrMAC, _) := getNodeDetails env oldNode
  let (newCidr, newNodeIP, newDrMAC, _) := getNodeDetails env newNode
  !reflect.DeepEqual oldCidr newCidr || !reflect.DeepEqual oldNodeIP newNodeIP ||
    !reflect.DeepEqual oldDrMAC newDrMAC ||
    !reflect.DeepEqual (newNode.Annotations.index env.HybridOverlayDRIP)
      (oldNode.Annotations.index env.HybridOverlayDRIP) ||
    env.NoHostSubnet oldNode != env.NoHostSubnet newNode

/-- The loop of `podChanged` (lines 77-81): true when the texts of the
entries differ at some index `i` of `oldIPs`.  The loop runs after the lengths
were found equal, so `newIPs[i]` is in range. -/
def podChanged.ipsDiffer (env : Env) (oldIPs newIPs : List (Option net.IPNet)) : Bool :=
  (List.range oldIPs.length).any fun i =>
    env.IPNetString (oldIPs.getD i none) != env.IPNetString (newIPs.getD i none)

/-- `podChanged` returns true if any relevant pod attributes changed; on the
two `*corev1.Pod` values behind `old` and `new`. -/
def podChanged (env : Env) (oldPod newPod : Pod) : Bool :=
  let (oldIPs, oldMAC, _) := getPodDetails env oldPod
  let (newIPs, newMAC, _) := getPodDetails env newPod
  if oldIPs.length != newIPs.length || !reflect.DeepEqual oldMAC newMAC then
    true
  else
    podChanged.ipsDiffer env oldIPs newIPs

/-! ## The backend and the callbacks registered by `NewNode` -/

/-- The `nodeController` interface, implemented by the os-specific code.  The
backend is stateful: a method takes the backend state `σ` and returns its
`error` result with the new state.  `RunFlowSync`, a task driven by the stop
channel, has no counterpart here. -/
structure nodeController (σ : Type) where
  AddPod : Pod → σ → Option Error × σ
  DeletePod : Pod → σ → Option Error × σ
  AddNode : Node → σ → Option Error × σ
  DeleteNode : Node → σ → Option Error × σ
  EnsureHybridOverlayBridge : Node → σ → Option Error × σ

/-- One call made on the backend. -/
inductive Call where
  | AddPod (pod : Pod)
  | DeletePod (pod : Pod)
  | AddNode (node : Node)
  | DeleteNode (node : Node)

/-- The backend state together with the calls made on the backend so far, in
the order they were made. -/
structure World (σ : Type) where
  backend : σ
  calls : List Call

/-- The call `n.controller.AddPod(pod)`. -/
def World.AddPod {σ : Type} (c : nodeController σ) (pod : Pod) (w : World σ) :
    Option Error × World σ :=
  ((c.AddPod pod w.backend).1, ⟨(c.AddPod pod w.backend).2, w.calls ++ [Call.AddPod pod]⟩)

/-- The call `n.controller.DeletePod(pod)`. -/
def World.DeletePod {σ : Type} (c : nodeController σ) (pod : Pod) (w : World σ) :
    Option Error × World σ :=
  ((c.DeletePod pod w.backend).1,
    ⟨(c.DeletePod pod w.backend).2, w.calls ++ [Call.DeletePod pod]⟩)

/-- The call `n.controller.AddNode(node)`. -/
def World.AddNode {σ : Type} (c : nodeController σ) (node : Node) (w : World σ) :
    Option Error × World σ :=
  ((c.AddNode node w.backend).1, ⟨(c.AddNode node w.backend).2, w.calls ++ [Call.AddNode node]⟩)

/-- The call `n.controller.DeleteNode(node)`. -/
def World.DeleteNode {σ : Type} (c : nodeController σ) (node : Node) (w : World σ) :
    Option Error × World σ :=
  ((c.DeleteNode node w.backend).1,
    ⟨(c.DeleteNode node w.backend).2, w.calls ++ [Call.DeleteNode node]⟩)

/-- The node add callback of `NewNode` (lines 111-117). -/
def NewNode.nodeAdd {σ : Type} (c : nodeController σ) (obj : Obj) (w : World σ) :
    Option Error × World σ :=
  match obj with
  | .node node => World.AddNode c node w
  | _ => (some (.Errorf "object is not a node" []), w)

/-- The node delete callback of `NewNode` (lines 118-124). -/
def NewNode.nodeDelete {σ : Type} (c : nodeController σ) (obj : Obj) (w : World σ) :
    Option Error × World σ :=
  match obj with
  | .node node => World.DeleteNode c node w
  | _ => (some (.Errorf "object is not a node" []), w)

/-- The pod add callback of `NewNode` (lines 131-140); `nodeName` is the
argument of `NewNode` that the closure captures. -/
def NewNode.podAdd {σ : Type} (c : nodeController σ) (nodeName : String) (obj : Obj)
    (w : World σ) : Option Error × World σ :=
  match obj with
  | .pod pod =>
    if pod.NodeName ≠ nodeName then (none, w)
    else World.AddPod c pod w
  | _ => (some (.Errorf "object is not a pod" []), w)

/-- The pod delete callback of `NewNode` (lines 141-147). -/
def NewNode.podDelete {σ : Type} (c : nodeController σ) (obj : Obj) (w : World σ) :
    Option Error × World σ :=
  match obj with
  | .pod pod => World.DeletePod c pod w
  | _ => (some (.Errorf "object is not a pod" []), w)

/-! ## Reference environment

A value of `Env` that follows the Go packages: the text parsers of package
`net`, and decoders for the two JSON annotations.  It serves the worked
examples; the general theorems do not refer to it. -/

namespace goref

/-- The UTF-8 bytes of a character. -/
def utf8 (c : Char) : List Nat :=
  let n := c.toNat
  if n < 0x80 then [n]
  else if n < 0x800 then [0xC0 + n / 64, 0x80 + n % 64]
  else if n < 0x10000 then [0xE0 + n / 4096, 0x80 + n / 64 % 64, 0x80 + n % 64]
  else [0xF0 + n / 262144, 0x80 + n / 4096 % 64, 0x80 + n / 64 % 64, 0x80 + n % 64]

/-- A Go string as its bytes. -/
def bytes (s : String) : List Nat :=
  s.toList.flatMap utf8

/-- The constant `big` of `net/parse.go`. -/
def big : Nat := 0xFFFFFF

/-- The loop of `dtoi`: `n` is the number read so far, `i` the bytes consumed. -/
def dtoi.loop : List Nat → Nat → Nat → Nat × Nat × Bool
  | [], n, i => if i = 0 then (0, 0, false) else (n, i, true)
  | c :: rest, n, i =>
    if '0'.toNat ≤ c ∧ c ≤ '9'.toNat then
      if n * 10 + (c - '0'.toNat) ≥ big then (big, i, false)
      else dtoi.loop rest (n * 10 + (c - '0'.toNat)) (i + 1)
    else if i = 0 then (0, 0, false) else (n, i, true)

/-- `dtoi`, decimal to integer: number, characters consumed, success. -/
def dtoi (s : List Nat) : Nat × Nat × Bool :=
  dtoi.loop s 0 0

/-- The value of a hexadecimal digit. -/
def xtoi.digit (c : Nat) : Option Nat :=
  if '0'.toNat ≤ c ∧ c ≤ '9'.toNat then some (c - '0'.toNat)
  else if 'a'.toNat ≤ c ∧ c ≤ 'f'.toNat then some (c - 'a'.toNat + 10)
  else if 'A'.toNat ≤ c ∧ c ≤ 'F'.toNat then some (c - 'A'.toNat + 10)
  else none

/-- The loop of `xtoi`. -/
def xtoi.loop : List Nat → Nat → Nat → Nat × Nat × Bool
  | [], n, i => if i = 0 then (0, i, false) else (n, i, true)
  | c :: rest, n, i =>
    match xtoi.digit c with
    | none => if i = 0 then (0, i, false) else (n, i, true)
    | some d =>
      if n * 16 + d ≥ big then (0, i, false)
      else xtoi.loop rest (n * 16 + d) (i + 1)

/-- `xtoi`, hexadecimal to integer: number, characters consumed, success. -/
def xtoi (s : List Nat) : Nat × Nat × Bool :=
  xtoi.loop s 0 0

/-- `xtoi2` converts the next two hex digits of `s` into a byte; if `s` is
longer than 2 bytes then the third byte must be `e`. -/
def xtoi2 (s : List Nat) (e : Nat) : Nat × Bool :=
  if s.length > 2 ∧ s.getD 2 0 ≠ e then (0, false)
  else
    let r := xtoi (s.take 2)
    (r.1 % 256, r.2.2 && r.2.1 == 2)

/-- The loop of `ParseMAC` for the forms `01:23:…` and `01-23-…`: `k` groups
are still to be read, the next one at offset `x`. -/
def ParseMAC.groups (s : List Nat) (e : Nat) : Nat → Nat → Option (List Nat)
  | 0, _ => some []
  | k + 1, x =>
    match xtoi2 (s.drop x) e with
    | (b, true) => (ParseMAC.groups s e k (x + 3)).map (b :: ·)
    | (_, false) => none

/-- The loop of `ParseMAC` for the form `0123.4567.…`: `k` groups of two
bytes are still to be read, the next one at offset `x`. -/
def ParseMAC.dotGroups (s : List Nat) (e : Nat) : Nat → Nat → Option (List Nat)
  | 0, _ => some []
  | k + 1, x =>
    match xtoi2 ((s.drop x).take 2) 0, xtoi2 (s.drop (x + 2)) e with
    | (b₁, true), (b₂, true) => (ParseMAC.dotGroups s e k (x + 5)).map (b₁ :: b₂ :: ·)
    | _, _ => none

/-- Go `net.ParseMAC`: an IEEE 802 MAC-48, EUI-64, or a 20-octet IP over
InfiniBand link-layer address, in one of the three textual forms. -/
def ParseMAC (str : String) : Except String (List Nat) :=
  let s := bytes str
  let err : Except String (List Nat) := .error ("address " ++ str ++ ": invalid MAC address")
  if s.length < 14 then err
  else if s.getD 2 0 = ':'.toNat ∨ s.getD 2 0 = '-'.toNat then
    if (s.length + 1) % 3 ≠ 0 then err
    else
      let n := (s.length + 1) / 3
      if n ≠ 6 ∧ n ≠ 8 ∧ n ≠ 20 then err
      else
        match ParseMAC.groups s (s.getD 2 0) n 0 with
        | some hw => .ok hw
        | none => err
  else if s.getD 4 0 = '.'.toNat then
    if (s.length + 1) % 5 ≠ 0 then err
    else
      let n := 2 * (s.length + 1) / 5
      if n ≠ 6 ∧ n ≠ 8 ∧ n ≠ 20 then err
      else
        match ParseMAC.dotGroups s (s.getD 4 0) (n / 2) 0 with
        | some hw => .ok hw
        | none => err
  else err

/-- Go `net.IPv4(a, b, c, d)`: the 16-byte form of an IPv4 address. -/
def IPv4 (p : List Nat) : List Nat :=
  [0, 0, 0, 0, 0, 0, 0, 0, 0, 0, 0xff, 0xff] ++ p

/-- The loop of `parseIPv4`: `k` octets are still to be read, `i` have been
read; the result is the octets and the rest of the text. -/
def parseIPv4.loop : Nat → Nat → List Nat → Option (List Nat × List Nat)
  | 0, _, s => some ([], s)
  | k + 1, i, s =>
    if s.length = 0 then none
    else if i > 0 ∧ s.getD 0 0 ≠ '.'.toNat then none
    else
      let s := if i > 0 then s.drop 1 else s
      let r := dtoi s
      if r.2.2 = false ∨ r.1 > 0xFF then none
      else if r.2.1 > 1 ∧ s.getD 0 0 = '0'.toNat then none
      else (parseIPv4.loop k (i + 1) (s.drop r.2.1)).map fun q => (r.1 :: q.1, q.2)

/-- `parseIPv4` parses `s` as an IPv4 address in dotted decimal form. -/
def parseIPv4 (s : List Nat) : Option (List Nat) :=
  match parseIPv4.loop 4 0 s with
  | some (p, []) => some (IPv4 p)
  | _ => none

/-- The loop of `parseIPv6`: the rest of the text, the bytes written so far
and the position of the ellipsis; `none` when the text is refused. -/
def parseIPv6.loop : Nat → List Nat → List Nat → Option Nat →
    Option (List Nat × List Nat × Option Nat)
  | 0, s, ip, ellipsis => some (s, ip, ellipsis)
  | fuel + 1, s, ip, ellipsis =>
    if ¬ ip.length < 16 then some (s, ip, ellipsis)
    else
      let r := xtoi s
      if r.2.2 = false ∨ r.1 > 0xFFFF then none
      else if r.2.1 < s.length ∧ s.getD r.2.1 0 = '.'.toNat then
        if ellipsis = none ∧ ip.length ≠ 12 then none
        else if ip.length + 4 > 16 then none
        else
          match parseIPv4 s with
          | none => none
          | some ip4 => some ([], ip ++ ip4.drop 12, ellipsis)
      else
        let ip := ip ++ [r.1 / 256, r.1 % 256]
        let s := s.drop r.2.1
        if s.length = 0 then some (s, ip, ellipsis)
        else if s.getD 0 0 ≠ ':'.toNat ∨ s.length = 1 then none
        else
          let s := s.drop 1
          if s.getD 0 0 = ':'.toNat then
            if ellipsis ≠ none then none
            else if (s.drop 1).length = 0 then some ([], ip, some ip.length)
            else parseIPv6.loop fuel (s.drop 1) ip (some ip.length)
          else parseIPv6.loop fuel s ip ellipsis

/-- The end of `parseIPv6`: the whole text must have been used, and an
ellipsis is expanded to the missing zero bytes. -/
def parseIPv6.finish (r : Option (List Nat × List Nat × Option Nat)) : Option (List Nat) :=
  match r with
  | none => none
  | some (s, ip, ellipsis) =>
    if s.length ≠ 0 then none
    else if ip.length < 16 then
      match ellipsis with
      | none => none
      | some e => some (ip.take e ++ List.replicate (16 - ip.length) 0 ++ ip.drop e)
    else if ellipsis ≠ none then none
    else some ip

/-- `parseIPv6` parses `s` as a literal IPv6 address (RFC 4291 section 2.2). -/
def parseIPv6 (s : List Nat) : Option (List Nat) :=
  if s.length ≥ 2 ∧ s.getD 0 0 = ':'.toNat ∧ s.getD 1 0 = ':'.toNat then
    if (s.drop 2).length = 0 then some (List.replicate 16 0)
    else parseIPv6.finish (parseIPv6.loop 9 (s.drop 2) [] (some 0))
  else parseIPv6.finish (parseIPv6.loop 9 s [] none)

/-- The scan of `ParseIP` for the first `.` or `:`. -/
def ParseIP.scan (s : List Nat) : List Nat → Option (List Nat)
  | [] => none
  | c :: rest =>
    if c = '.'.toNat then parseIPv4 s
    else if c = ':'.toNat then parseIPv6 s
    else ParseIP.scan s rest

/-- Go `net.ParseIP`: an IPv4 dotted decimal or IPv6 text as a 16-byte
address, nil for any other text. -/
def ParseIP (str : String) : net.IP :=
  ParseIP.scan (bytes str) (bytes str)

/-- The byte `i` of `CIDRMask(ones, bits)`. -/
def CIDRMask.byte (ones i : Nat) : Nat :=
  if ones ≥ 8 * (i + 1) then 0xff
  else if ones ≤ 8 * i then 0
  else 0xff - 0xff / 2 ^ (ones - 8 * i)

/-- Go `net.CIDRMask`, for `ones ≤ bits` and `bits` 32 or 128. -/
def CIDRMask (ones bits : Nat) : List Nat :=
  (List.range (bits / 8)).map (CIDRMask.byte ones)

/-- Go `IP.Mask`, on non-nil arguments; nil when the lengths do not fit. -/
def Mask (ip mask : List Nat) : Option (List Nat) :=
  let mask :=
    if mask.length = 16 ∧ ip.length = 4 ∧ (mask.take 12).all (· == 0xff) then mask.drop 12
    else mask
  let ip :=
    if mask.length = 4 ∧ ip.length = 16 ∧ ip.take 12 = IPv4 [] then ip.drop 12 else ip
  if ip.length ≠ mask.length then none
  else some (List.zipWith Nat.land ip mask)

/-- Byte offset of the first `/` of the text (`bytealg.IndexByteString`). -/
def indexSlash : List Nat → Option Nat
  | [] => none
  | c :: rest => if c = '/'.toNat then some 0 else (indexSlash rest).map (· + 1)

/-- Go `net.ParseCIDR`: the address, and the network it lies in. -/
def ParseCIDR (str : String) : Except String (List Nat × net.IPNet) :=
  let s := bytes str
  let err : Except String (List Nat × net.IPNet) :=
    .error ("invalid CIDR address: " ++ str)
  match indexSlash s with
  | none => err
  | some i =>
    let addr := s.take i
    let mask := s.drop (i + 1)
    let ip4 := parseIPv4 addr
    let iplen := if ip4 = none then 16 else 4
    let ip := if ip4 = none then parseIPv6 addr else ip4
    let r := dtoi mask
    match ip with
    | none => err
    | some ip =>
      if r.2.2 = false ∨ r.2.1 ≠ mask.length ∨ r.1 > 8 * iplen then err
      else .ok (ip, ⟨Mask ip (CIDRMask r.1 (8 * iplen)), some (CIDRMask r.1 (8 * iplen))⟩)

/-- Go `IP.To4`. -/
def To4 (ip : List Nat) : Option (List Nat) :=
  if ip.length = 4 then some ip
  else if ip.length = 16 ∧ ip.take 12 = IPv4 [] then some (ip.drop 12)
  else none

/-- Go `networkNumberAndMask`. -/
def networkNumberAndMask (n : net.IPNet) : Option (List Nat × List Nat) :=
  let ip? : Option (List Nat) :=
    match To4 (n.IP.getD []) with
    | some ip => some ip
    | none => if (n.IP.getD []).length ≠ 16 then none else some (n.IP.getD [])
  match ip? with
  | none => none
  | some ip =>
    let m := n.Mask.getD []
    if m.length = 4 then (if ip.length ≠ 4 then none else some (ip, m))
    else if m.length = 16 then (if ip.length = 4 then some (ip, m.drop 12) else some (ip, m))
    else none

/-- The number of leading one bits of a byte, and whether the bits after
them are all zero. -/
def leadingOnes : Nat → Nat → Nat × Bool
  | 0, v => (0, v % 256 == 0)
  | fuel + 1, v =>
    if v % 256 / 128 = 1 then ((leadingOnes fuel (v * 2)).1 + 1, (leadingOnes fuel (v * 2)).2)
    else (0, v % 256 == 0)

/-- Go `simpleMaskLength`: the number of leading ones of a mask made of ones
followed by zeros, and nothing (Go: -1) for any other mask. -/
def simpleMaskLength : List Nat → Option Nat
  | [] => some 0
  | v :: rest =>
    if v = 0xff then (simpleMaskLength rest).map (· + 8)
    else if (leadingOnes 8 v).2 ∧ rest.all (· == 0) then some (leadingOnes 8 v).1
    else none

/-- Two lower-case hex digits for each byte (`hexString`). -/
def hexString (b : List Nat) : String :=
  String.mk (b.flatMap fun v => [Nat.digitChar (v / 16), Nat.digitChar (v % 16)])

/-- The search of `IP.String` for the longest run of zero groups, on the eight
16-bit groups `g`: the run found so far is `best`, as (first group, group after
the last). -/
def zeroRun.loop : Nat → Nat → Option (Nat × Nat) → List Nat → Option (Nat × Nat)
  | 0, _, best, _ => best
  | fuel + 1, i, best, g =>
    if ¬ i < 8 then best
    else
      let j := i + ((g.drop i).takeWhile (· == 0)).length
      let len := match best with
        | none => 0
        | some (e0, e1) => e1 - e0
      if j > i ∧ j - i > len then zeroRun.loop fuel (j + 1) (some (i, j)) g
      else zeroRun.loop fuel (i + 1) best g

/-- The run to print as `::`; a single zero group is not shortened. -/
def zeroRun (g : List Nat) : Option (Nat × Nat) :=
  match zeroRun.loop 8 0 none g with
  | some (e0, e1) => if e1 - e0 ≤ 1 then none else some (e0, e1)
  | none => none

/-- The print loop of `IP.String` over the eight groups, from group `i` on. -/
def ipv6Text.loop : Nat → Nat → Option (Nat × Nat) → List Nat → String
  | 0, _, _, _ => ""
  | fuel + 1, i, run, g =>
    if ¬ i < 8 then ""
    else if run.map (·.1) = some i then
      let e1 := (run.map (·.2)).getD 8
      if e1 ≥ 8 then "::"
      else "::" ++ String.mk (Nat.toDigits 16 (g.getD e1 0)) ++ ipv6Text.loop fuel (e1 + 1) run g
    else
      (if i > 0 then ":" else "") ++ String.mk (Nat.toDigits 16 (g.getD i 0)) ++
        ipv6Text.loop fuel (i + 1) run g

/-- The 16-bit groups of a 16-byte address. -/
def groups : List Nat → List Nat
  | hi :: lo :: rest => (hi * 256 + lo) :: groups rest
  | _ => []

/-- Go `IP.String`, on an address of 4 or 16 bytes. -/
def IPString (ip : List Nat) : String :=
  if ip.length = 0 then "<nil>"
  else
    match To4 ip with
    | some p4 => ".".intercalate (p4.map toString)
    | none =>
      if ip.length ≠ 16 then "?" ++ hexString ip
      else ipv6Text.loop 8 0 (zeroRun (groups ip)) (groups ip)

/-- Go `(*net.IPNet).String`: the CIDR text of RFC 4632 and RFC 4291, or the
address, a slash and the mask in hex when the mask is not canonical. -/
def IPNetString (n : Option net.IPNet) : String :=
  match n with
  | none => "<nil>"
  | some n =>
    match networkNumberAndMask n with
    | none => "<nil>"
    | some (nn, m) =>
      match simpleMaskLength m with
      | none => IPString nn ++ "/" ++ (if m.length = 0 then "<nil>" else hexString m)
      | some l => IPString nn ++ "/" ++ toString l

/-! ### The JSON annotations

The two structured annotations are JSON texts.  The reader below covers the
part of JSON they are written in: objects, arrays and strings without escape
sequences, with white space between the tokens.  Any other text is refused. -/

/-- A JSON value of the part read here. -/
inductive Json where
  | str (s : String)
  | arr (items : List Json)
  | obj (members : List (String × Json))

/-- Skips JSON white space. -/
def Json.ws (s : List Char) : List Char :=
  s.dropWhile fun c => c == ' ' || c == '\t' || c == '\n' || c == '\r'

/-- Reads a string after its opening quote: the text and what follows the
closing quote. -/
def Json.readString : List Char → Option (List Char × List Char)
  | [] => none
  | c :: rest =>
    if c = '"' then some ([], rest)
    else if c = '\\' ∨ c.toNat < 0x20 then none
    else (Json.readString rest).map fun r => (c :: r.1, r.2)

mutual

/-- Reads one value, after white space. -/
def Json.readValue : Nat → List Char → Option (Json × List Char)
  | 0, _ => none
  | fuel + 1, s =>
    match Json.ws s with
    | '"' :: rest => (Json.readString rest).map fun r => (.str (String.mk r.1), r.2)
    | '[' :: rest =>
      match Json.ws rest with
      | ']' :: rest => some (.arr [], rest)
      | _ => (Json.readItems fuel rest).map fun r => (.arr r.1, r.2)
    | '{' :: rest =>
      match Json.ws rest with
      | '}' :: rest => some (.obj [], rest)
      | _ => (Json.readMembers fuel rest).map fun r => (.obj r.1, r.2)
    | _ => none

/-- Reads the items of a non-empty array, up to and with its `]`. -/
def Json.readItems : Nat → List Char → Option (List Json × List Char)
  | 0, _ => none
  | fuel + 1, s =>
    match Json.readValue fuel s with
    | none => none
    | some (v, rest) =>
      match Json.ws rest with
      | ',' :: rest => (Json.readItems fuel rest).map fun r => (v :: r.1, r.2)
      | ']' :: rest => some ([v], rest)
      | _ => none

/-- Reads the members of a non-empty object, up to and with its `}`. -/
def Json.readMembers : Nat → List Char → Option (List (String × Json) × List Char)
  | 0, _ => none
  | fuel + 1, s =>
    match Json.ws s with
    | '"' :: rest =>
      match Json.readString rest with
      | none => none
      | some (k, rest) =>
        match Json.ws rest with
        | ':' :: rest =>
          match Json.readValue fuel rest with
          | none => none
          | some (v, rest) =>
            match Json.ws rest with
            | ',' :: rest =>
              (Json.readMembers fuel rest).map fun r => ((String.mk k, v) :: r.1, r.2)
            | '}' :: rest => some ([(String.mk k, v)], rest)
            | _ => none
        | _ => none
    | _ => none

end

/-- Reads a whole text as one JSON value. -/
def Json.read (text : String) : Option Json :=
  match Json.readValue (text.length + 1) text.toList with
  | some (v, rest) => if Json.ws rest = [] then some v else none
  | none => none

/-- The member of an object for a key; of two members with one key the later
one counts, as in a Go map. -/
def Json.member (members : List (String × Json)) (k : String) : Option Json :=
  members.reverse.lookup k

/-- A JSON array of strings as a list of strings. -/
def Json.strings : Json → Option (List String)
  | .arr items => items.mapM fun
    | .str s => some s
    | _ => none
  | _ => none

/-- `util.ParseIPNet`: the address of a CIDR text with the mask of its network. -/
def ParseIPNet (str : String) : Option net.IPNet :=
  match ParseCIDR str with
  | .ok (ip, ipNet) => some ⟨some ip, ipNet.Mask⟩
  | .error _ => none

/-- The subnet texts of each network of a host-subnet annotation: the
dual-stack form `{"net": ["cidr", …]}` is tried first, then the single-stack
form `{"net": "cidr"}`. -/
def subnetTexts (members : List (String × Json)) : Option (List (String × List String)) :=
  match members.mapM fun m => (Json.strings m.2).map fun l => (m.1, l) with
  | some dual => some dual
  | none => members.mapM fun m =>
    match m.2 with
    | .str v => some (m.1, [v])
    | _ => none

/-- The networks of a list of members, each once, with the value a Go map
would hold for it. -/
def lastValues (l : List (String × List String)) : List (String × List String) :=
  (l.map (·.1)).dedup.map fun k => (k, (l.reverse.lookup k).getD [])

/-- Decodes the text of the host-subnet annotation for the network `netName`,
as `util.ParseNodeHostSubnetAnnotation` does once it has found the annotation:
nil (`[]`) when the text is no JSON object of either form, when it has no
network, when one of its subnets is no CIDR, and when it has no entry for
`netName`. -/
def decodeNodeSubnets (value netName : String) : List (Option net.IPNet) :=
  match Json.read value with
  | some (.obj members) =>
    match subnetTexts members with
    | none => []
    | some nets =>
      if nets.length = 0 then []
      else
        match (lastValues nets).mapM fun n => (n.2.mapM ParseIPNet).map fun l => (n.1, l) with
        | none => []
        | some parsed => ((parsed.lookup netName).getD []).map some
  | _ => []

/-- The name of the pod annotation read by `util.UnmarshalPodAnnotation`. -/
def OvnPodAnnotationName : String := "k8s.ovn.org/pod-networks"

/-- The string member `k` of a JSON object, `""` when the object has none. -/
def Json.stringMember (members : List (String × Json)) (k : String) : Option String :=
  match Json.member members k with
  | none => some ""
  | some (.str v) => some v
  | some _ => none

/-- The member `k` of a JSON object as a list of strings, `[]` when the
object has none. -/
def Json.stringsMember (members : List (String × Json)) (k : String) : Option (List String) :=
  match Json.member members k with
  | none => some []
  | some v => Json.strings v

/-- `util.UnmarshalPodAnnotation`, for the members `mac_address`,
`ip_addresses` and `ip_address` of a network's entry in the pod annotation;
the remaining members (gateways, routes) are not looked at.  It fails when the
annotation is missing or no JSON, when it has no entry for the network, when
the MAC does not parse, when no IP is given or `ip_address` differs from the
first of `ip_addresses`, and when an IP is no CIDR. -/
def UnmarshalPodAnnotation (annotations : StringMap) (nadName : String) :
    Except String PodAnnotation :=
  match annotations OvnPodAnnotationName with
  | none => .error "could not find OVN pod annotation"
  | some ovnAnnotation =>
    match Json.read ovnAnnotation with
    | some (.obj networks) =>
      match Json.member networks nadName with
      | some (.obj a) =>
        match Json.stringMember a "mac_address", Json.stringsMember a "ip_addresses",
          Json.stringMember a "ip_address" with
        | some mac, some ips, some ip =>
          match ParseMAC mac with
          | .error err => .error ("failed to parse pod MAC " ++ mac ++ ": " ++ err)
          | .ok hw =>
            if ips.length = 0 ∧ ip = "" then
              .error "bad annotation data (neither ip_address nor ip_addresses is set)"
            else if ips.length ≠ 0 ∧ ip ≠ "" ∧ some ip ≠ ips.head? then
              .error "bad annotation data (ip_address and ip_addresses conflict)"
            else
              match (if ips.length = 0 then [ip] else ips).mapM ParseIPNet with
              | none => .error "failed to parse pod IP"
              | some nets => .ok ⟨nets.map some, hw⟩
        | _, _, _ => .error ("failed to unmarshal ovn pod annotation " ++ ovnAnnotation)
      | some _ => .error ("failed to unmarshal ovn pod annotation " ++ ovnAnnotation)
      | none => .error ("no OVN pod annotation for network " ++ nadName)
    | _ => .error ("failed to unmarshal ovn pod annotation " ++ ovnAnnotation)

/-- `util.NoHostSubnet` for a configured selector `noHostSubnetNodes`, given
by the labels it asks for: false when no selector is configured, and whether
the labels of the node match it otherwise. -/
def NoHostSubnet (noHostSubnetNodes : Option (List (String × String))) (node : Node) : Bool :=
  match noHostSubnetNodes with
  | none => false
  | some selector => selector.all fun kv => node.Labels kv.1 == some kv.2

end goref

/-- The reference environment, for a configuration whose no-host-subnet
selector is `noHostSubnetNodes`. -/
def goEnv (noHostSubnetNodes : Option (List (String × String))) : Env where
  DefaultNetworkName := "default"
  HybridOverlayNodeSubnet := "k8s.ovn.org/hybrid-overlay-node-subnet"
  HybridOverlayDRMAC := "k8s.ovn.org/hybrid-overlay-distributed-router-gateway-mac"
  HybridOverlayDRIP := "k8s.ovn.org/hybrid-overlay-distributed-router-gateway-ip"
  OvnNodeSubnets := "k8s.ovn.org/node-subnets"
  ParseCIDR := goref.ParseCIDR
  ParseIP := goref.ParseIP
  ParseMAC := goref.ParseMAC
  IPNetString := goref.IPNetString
  decodeNodeSubnets := goref.decodeNodeSubnets
  NoHostSubnet := goref.NoHostSubnet noHostSubnetNodes
  UnmarshalPodAnnotation := goref.UnmarshalPodAnnotation

/-- A map given by its entries; of two entries with one key the first counts. -/
def mapOf (entries : List (String × String)) : StringMap :=
  fun k => entries.lookup k

/-! ## Example objects -/

/-- A node annotated with hybrid-overlay subnet `10.1.2.0/24`, DR-MAC
`0a:58:0a:01:02:01` and internal IP `10.0.0.5`. -/
def exampleNode : Node where
  Name := "worker-1"
  Labels := mapOf [("zone", "a")]
  Annotations := mapOf [
    ("k8s.ovn.org/hybrid-overlay-node-subnet", "10.1.2.0/24"),
    ("k8s.ovn.org/hybrid-overlay-distributed-router-gateway-mac", "0a:58:0a:01:02:01")]
  Addresses := [⟨"Hostname", "worker-1"⟩, ⟨"InternalIP", "10.0.0.5"⟩]

/-- `exampleNode` after an update of fields the overlay does not read: other
labels, one more annotation, one more address. -/
def relabelledNode : Node where
  Name := "worker-1"
  Labels := mapOf [("zone", "b"), ("tier", "edge")]
  Annotations := mapOf [
    ("k8s.ovn.org/hybrid-overlay-node-subnet", "10.1.2.0/24"),
    ("k8s.ovn.org/hybrid-overlay-distributed-router-gateway-mac", "0a:58:0a:01:02:01"),
    ("example.com/heartbeat", "42")]
  Addresses := [⟨"Hostname", "worker-1"⟩, ⟨"InternalIP", "10.0.0.5"⟩, ⟨"ExternalIP", "192.0.2.7"⟩]

/-- `exampleNode` with the annotation `key` set to `value`. -/
def exampleNode.withAnnotation (key value : String) : Node :=
  { exampleNode with Annotations := exampleNode.Annotations.set key value }

/-- `exampleNode` with its DR-MAC annotation written in upper case. -/
def upperCaseMACNode : Node :=
  exampleNode.withAnnotation "k8s.ovn.org/hybrid-overlay-distributed-router-gateway-mac"
    "0A:58:0A:01:02:01"

/-- `exampleNode` with another hybrid-overlay subnet. -/
def otherSubnetNode : Node :=
  exampleNode.withAnnotation "k8s.ovn.org/hybrid-overlay-node-subnet" "10.1.3.0/24"

/-- `exampleNode` after an update that removed the DR-MAC annotation. -/
def noMACNode : Node where
  Name := "worker-1"
  Labels := mapOf [("zone", "a")]
  Annotations := mapOf [("k8s.ovn.org/hybrid-overlay-node-subnet", "10.1.2.0/24")]
  Addresses := [⟨"Hostname", "worker-1"⟩, ⟨"InternalIP", "10.0.0.5"⟩]

/-- A node that has no subnet annotation yet, with the DR-MAC annotation `mac`. -/
def noSubnetNode (mac : String) : Node where
  Name := "worker-3"
  Labels := mapOf []
  Annotations := mapOf [("k8s.ovn.org/hybrid-overlay-distributed-router-gateway-mac", mac)]
  Addresses := [⟨"InternalIP", "10.0.0.7"⟩]

/-- A node without annotations and without addresses. -/
def bareNode : Node where
  Name := "worker-4"
  Labels := mapOf []
  Annotations := mapOf []
  Addresses := []

/-- `exampleNode` reporting an internal IP that is no IP address. -/
def badIPNode : Node where
  Name := "worker-1"
  Labels := mapOf [("zone", "a")]
  Annotations := mapOf [
    ("k8s.ovn.org/hybrid-overlay-node-subnet", "10.1.2.0/24"),
    ("k8s.ovn.org/hybrid-overlay-distributed-router-gateway-mac", "0a:58:0a:01:02:01")]
  Addresses := [⟨"Hostname", "worker-1"⟩, ⟨"InternalIP", "not-an-ip"⟩]

/-- `exampleNode` reporting no internal IP at all. -/
def noInternalIPNode : Node where
  Name := "worker-1"
  Labels := mapOf [("zone", "a")]
  Annotations := mapOf [
    ("k8s.ovn.org/hybrid-overlay-node-subnet", "10.1.2.0/24"),
    ("k8s.ovn.org/hybrid-overlay-distributed-router-gateway-mac", "0a:58:0a:01:02:01")]
  Addresses := [⟨"Hostname", "worker-1"⟩]

/-- A node with the malformed subnet string `not-a-cidr` and no
primary-network annotation. -/
def notACidrNode : Node where
  Name := "worker-1"
  Labels := mapOf [("zone", "a")]
  Annotations := mapOf [
    ("k8s.ovn.org/hybrid-overlay-node-subnet", "not-a-cidr"),
    ("k8s.ovn.org/hybrid-overlay-distributed-router-gateway-mac", "0a:58:0a:01:02:01")]
  Addresses := [⟨"Hostname", "worker-1"⟩, ⟨"InternalIP", "10.0.0.5"⟩]

/-- A node with the primary-network host-subnet annotation `primary` and the
hybrid-overlay subnet annotation `fallback`. -/
def twoSubnetsNode (primary fallback : String) : Node where
  Name := "worker-5"
  Labels := mapOf []
  Annotations := mapOf [
    ("k8s.ovn.org/node-subnets", primary),
    ("k8s.ovn.org/hybrid-overlay-node-subnet", fallback)]
  Addresses := [⟨"InternalIP", "10.0.0.9"⟩]

/-- The text of a dual-stack primary-network host-subnet annotation. -/
def dualStackSubnets : String :=
  "\x7b\"default\":[\"10.128.0.0/23\",\"fd01:0:0:1::/64\"]\x7d"

/-- A pod on `worker-1` with the pod annotation `networks`. -/
def podWith (networks : String) : Pod where
  Name := "web-0"
  Annotations := mapOf [("k8s.ovn.org/pod-networks", networks)]
  NodeName := "worker-1"

/-- A pod with the IP `10.1.2.5/24` and the MAC `0a:58:0a:01:02:05`. -/
def examplePod : Pod :=
  podWith
    "\x7b\"default\":\x7b\"ip_addresses\":[\"10.1.2.5/24\"],\"mac_address\":\"0a:58:0a:01:02:05\"\x7d\x7d"

/-- `examplePod` updated to add the second IP `fd01::5/64`. -/
def dualStackPod : Pod :=
  podWith
    "\x7b\"default\":\x7b\"ip_addresses\":[\"10.1.2.5/24\",\"fd01::5/64\"],\"mac_address\":\"0a:58:0a:01:02:05\"\x7d\x7d"

/-- A pod on `worker-1` that has not been assigned a network yet. -/
def unassignedPod : Pod where
  Name := "web-0"
  Annotations := mapOf []
  NodeName := "worker-1"

/-- A pod scheduled to `worker-2`. -/
def foreignPod : Pod where
  Name := "web-1"
  Annotations := mapOf []
  NodeName := "worker-2"

/-- A backend that counts the calls of `AddPod` and refuses a pod that has no
network annotation. -/
def countingBackend : nodeController Nat where
  AddPod := fun pod n =>
    (if pod.Annotations "k8s.ovn.org/pod-networks" = none then
        some (.lib "pod has no network annotation")
      else none, n + 1)
  DeletePod := fun _ n => (none, n)
  AddNode := fun _ n => (none, n)
  DeleteNode := fun _ n => (none, n)
  EnsureHybridOverlayBridge := fun _ n => (none, n)

/-! ## Vocabulary of the statements -/

/-- Identity resolution succeeds on the node: `getNodeDetails` returns a nil
error. -/
def nodeResolves (env : Env) (node : Node) : Bool :=
  (getNodeDetails env node).2.2.2.isNone

/-- Identity resolution succeeds on the pod: `getPodDetails` returns a nil
error. -/
def podResolves (env : Env) (pod : Pod) : Bool :=
  (getPodDetails env pod).2.2.isNone

/-- The error of `getNodeDetails` for a node without subnet or IP. -/
def errMissingAddress : Error :=
  .Errorf "missing node subnet and/or node IP" []

/-- The error of `getNodeDetails` for a node without DR-MAC annotation. -/
def errMissingDRMAC : Error :=
  .Errorf "missing distributed router MAC annotation" []

/-- The error of `getNodeDetails` for a DR-MAC annotation that does not parse. -/
def errInvalidDRMAC (drMACString err : String) : Error :=
  .Errorf "invalid distributed router MAC %q: %v" [drMACString, err]

/-! ## Lemmas -/

theorem nodeChanged_iff (env : Env) (oldNode newNode : Node) :
    nodeChanged env oldNode newNode = true ↔
      (getNodeDetails env oldNode).1 ≠ (getNodeDetails env newNode).1 ∨
      (getNodeDetails env oldNode).2.1 ≠ (getNodeDetails env newNode).2.1 ∨
      (getNodeDetails env oldNode).2.2.1 ≠ (getNodeDetails env newNode).2.2.1 ∨
      newNode.Annotations.index env.HybridOverlayDRIP ≠
        oldNode.Annotations.index env.HybridOverlayDRIP ∨
      env.NoHostSubnet oldNode ≠ env.NoHostSubnet newNode := by
  unfold nodeChanged
  rcases getNodeDetails env oldNode with ⟨c₁, i₁, m₁, e₁⟩
  rcases getNodeDetails env newNode with ⟨c₂, i₂, m₂, e₂⟩
  simp [reflect.DeepEqual, or_assoc]

theorem getNodeDetails_resolved_or_error (env : Env) (node : Node) :
    (∃ cidr ip mac, getNodeDetails env node = (some cidr, some ip, some mac, none)) ∨
    (∃ err, getNodeDetails env node = (none, none, none, some err)) := by
  unfold getNodeDetails
  rcases getNodeSubnetAndIP env node with ⟨cidr, ip⟩
  cases cidr <;> cases ip <;> simp
  cases node.Annotations env.HybridOverlayDRMAC <;> simp
  cases env.ParseMAC _ <;> simp

theorem getNodeDetails_of_no_address (env : Env) (node : Node)
    (h : (getNodeSubnetAndIP env node).1 = none ∨ (getNodeSubnetAndIP env node).2 = none) :
    getNodeDetails env node = (none, none, none, some errMissingAddress) := by
  unfold getNodeDetails
  rcases hr : getNodeSubnetAndIP env node with ⟨cidr, ip⟩
  rw [hr] at h
  simp only [] at h
  simp [h, errMissingAddress]

theorem getNodeDetails_of_no_drmac (env : Env) (node : Node)
    (hmac : node.Annotations env.HybridOverlayDRMAC = none)
    (hcidr : (getNodeSubnetAndIP env node).1 ≠ none)
    (hip : (getNodeSubnetAndIP env node).2 ≠ none) :
    getNodeDetails env node = (none, none, none, some errMissingDRMAC) := by
  unfold getNodeDetails
  rcases hr : getNodeSubnetAndIP env node with ⟨cidr, ip⟩
  rw [hr] at hcidr hip
  simp only [] at hcidr hip
  simp [hcidr, hip, hmac, errMissingDRMAC]

theorem nodeResolves_iff (env : Env) (node : Node) :
    nodeResolves env node = true ↔ (getNodeDetails env node).1 ≠ none := by
  unfold nodeResolves
  rcases getNodeDetails_resolved_or_error env node with ⟨c, i, m, h⟩ | ⟨e, h⟩ <;> simp [h]

theorem getPodDetails_resolved_or_error (env : Env) (pod : Pod) :
    (∃ ips mac, getPodDetails env pod = (ips, some mac, none)) ∨
    (∃ err, getPodDetails env pod = ([], none, some err)) := by
  unfold getPodDetails
  cases env.UnmarshalPodAnnotation pod.Annotations env.DefaultNetworkName <;> simp

theorem podResolves_iff (env : Env) (pod : Pod) :
    podResolves env pod = true ↔ (getPodDetails env pod).2.1 ≠ none := by
  unfold podResolves
  rcases getPodDetails_resolved_or_error env pod with ⟨i, m, h⟩ | ⟨e, h⟩ <;> simp [h]

theorem ipsDiffer_eq_false_iff (env : Env) (oldIPs newIPs : List (Option net.IPNet)) :
    podChanged.ipsDiffer env oldIPs newIPs = false ↔
      ∀ i, i < oldIPs.length →
        env.IPNetString (oldIPs.getD i none) = env.IPNetString (newIPs.getD i none) := by
  unfold podChanged.ipsDiffer
  simp [List.any_eq_false]

theorem podChanged_eq_false_iff (env : Env) (oldPod newPod : Pod) :
    podChanged env oldPod newPod = false ↔
      (getPodDetails env oldPod).1.length = (getPodDetails env newPod).1.length ∧
      (∀ i, i < (getPodDetails env oldPod).1.length →
        env.IPNetString ((getPodDetails env oldPod).1.getD i none) =
          env.IPNetString ((getPodDetails env newPod).1.getD i none)) ∧
      (getPodDetails env oldPod).2.1 = (getPodDetails env newPod).2.1 := by
  unfold podChanged
  rcases getPodDetails env oldPod with ⟨o, om, oe⟩
  rcases getPodDetails env newPod with ⟨n, nm, ne⟩
  by_cases hlen : o.length = n.length <;> by_cases hmac : om = nm <;>
    simp [reflect.DeepEqual, hlen, hmac, ipsDiffer_eq_false_iff]

theorem exists_index_of_map_ne (f : Option net.IPNet → String) :
    ∀ o n : List (Option net.IPNet), o.length = n.length → o.map f ≠ n.map f →
      ∃ i, i < o.length ∧ f (o.getD i none) ≠ f (n.getD i none) := by
  intro o
  induction o with
  | nil => intro n hl hne; cases n <;> simp_all
  | cons a o ih =>
    intro n hl hne
    cases n with
    | nil => simp at hl
    | cons b n =>
      by_cases hab : f a = f b
      · have hl' : o.length = n.length := by simpa using hl
        have hne' : o.map f ≠ n.map f := by
          intro h; apply hne; simp [hab, h]
        obtain ⟨i, hi, hd⟩ := ih n hl' hne'
        exact ⟨i + 1, by simpa using hi, by simpa using hd⟩
      · exact ⟨0, by simp, by simpa using hab⟩

/-! ## The change predicates -/

/-- C1.  For every pair of nodes for which `getNodeDetails` yields the same
subnet, the same internal IP and the same distributed-router MAC, whose
`HybridOverlayDRIP` annotation values are equal and whose `util.NoHostSubnet`
results are equal, `nodeChanged` returns false, whatever else differs between
the two nodes. -/
theorem nodeChanged_false_of_same_details (env : Env) (oldNode newNode : Node)
    (hsubnet : (getNodeDetails env oldNode).1 = (getNodeDetails env newNode).1)
    (hip : (getNodeDetails env oldNode).2.1 = (getNodeDetails env newNode).2.1)
    (hmac : (getNodeDetails env oldNode).2.2.1 = (getNodeDetails env newNode).2.2.1)
    (hdrip : oldNode.Annotations.index env.HybridOverlayDRIP =
      newNode.Annotations.index env.HybridOverlayDRIP)
    (hflag : env.NoHostSubnet oldNode = env.NoHostSubnet newNode) :
    nodeChanged env oldNode newNode = false := by
  rw [← Bool.not_eq_true, nodeChanged_iff]
  simp [hsubnet, hip, hmac, hdrip, hflag]

/-- C1 at `exampleNode` and `relabelledNode`: the labels, the annotations and
the addresses of the two nodes differ, the resolved details do not, and
`nodeChanged` is false. -/
theorem nodeChanged_false_of_same_details_witness :
    exampleNode.Labels "zone" ≠ relabelledNode.Labels "zone" ∧
    exampleNode.Annotations "example.com/heartbeat" ≠
      relabelledNode.Annotations "example.com/heartbeat" ∧
    exampleNode.Addresses ≠ relabelledNode.Addresses ∧
    nodeChanged (goEnv (some [("node.example.com/no-host-subnet", "true")]))
      exampleNode relabelledNode = false :=
  ⟨by decide, by decide, by decide,
    nodeChanged_false_of_same_details _ exampleNode relabelledNode
      (by decide) (by decide) (by decide) (by decide) (by decide)⟩

/-- C2 as stated fails.  First pair: both nodes resolve, `getNodeSubnetAndIP`
returns the same subnet and IP for both, the texts of their DR-MAC annotations
differ (lower and upper case of one address), and `nodeChanged` is false.
Second pair: neither node has a subnet, `getNodeSubnetAndIP` returns nil and
nil for both, their DR-MAC annotations differ, and `nodeChanged` is false. -/
theorem nodeChanged_false_despite_drmac_text_change :
    (getNodeSubnetAndIP (goEnv none) exampleNode = getNodeSubnetAndIP (goEnv none) upperCaseMACNode ∧
      exampleNode.Annotations (goEnv none).HybridOverlayDRMAC ≠
        upperCaseMACNode.Annotations (goEnv none).HybridOverlayDRMAC ∧
      exampleNode.Annotations.index (goEnv none).HybridOverlayDRIP =
        upperCaseMACNode.Annotations.index (goEnv none).HybridOverlayDRIP ∧
      (goEnv none).NoHostSubnet exampleNode = (goEnv none).NoHostSubnet upperCaseMACNode ∧
      nodeChanged (goEnv none) exampleNode upperCaseMACNode = false) ∧
    (getNodeSubnetAndIP (goEnv none) (noSubnetNode "0a:58:0a:01:02:01") =
        getNodeSubnetAndIP (goEnv none) (noSubnetNode "0a:58:0a:01:02:02") ∧
      (noSubnetNode "0a:58:0a:01:02:01").Annotations (goEnv none).HybridOverlayDRMAC ≠
        (noSubnetNode "0a:58:0a:01:02:02").Annotations (goEnv none).HybridOverlayDRMAC ∧
      (noSubnetNode "0a:58:0a:01:02:01").Annotations.index (goEnv none).HybridOverlayDRIP =
        (noSubnetNode "0a:58:0a:01:02:02").Annotations.index (goEnv none).HybridOverlayDRIP ∧
      (goEnv none).NoHostSubnet (noSubnetNode "0a:58:0a:01:02:01") =
        (goEnv none).NoHostSubnet (noSubnetNode "0a:58:0a:01:02:02") ∧
      nodeChanged (goEnv none) (noSubnetNode "0a:58:0a:01:02:01")
        (noSubnetNode "0a:58:0a:01:02:02") = false) := by
  decide

/-- C2, amended.  For every pair of nodes that differ in exactly one of the
subnet, the internal IP and the distributed-router MAC that `getNodeDetails`
returns, the other two being equal on both nodes, as are the extra-DR-IP
annotation and the no-host-subnet flag, `nodeChanged` returns true. -/
theorem nodeChanged_true_of_one_detail_differs (env : Env) (oldNode newNode : Node)
    (hone :
      ((getNodeDetails env oldNode).1 ≠ (getNodeDetails env newNode).1 ∧
        (getNodeDetails env oldNode).2.1 = (getNodeDetails env newNode).2.1 ∧
        (getNodeDetails env oldNode).2.2.1 = (getNodeDetails env newNode).2.2.1) ∨
      ((getNodeDetails env oldNode).1 = (getNodeDetails env newNode).1 ∧
        (getNodeDetails env oldNode).2.1 ≠ (getNodeDetails env newNode).2.1 ∧
        (getNodeDetails env oldNode).2.2.1 = (getNodeDetails env newNode).2.2.1) ∨
      ((getNodeDetails env oldNode).1 = (getNodeDetails env newNode).1 ∧
        (getNodeDetails env oldNode).2.1 = (getNodeDetails env newNode).2.1 ∧
        (getNodeDetails env oldNode).2.2.1 ≠ (getNodeDetails env newNode).2.2.1))
    (_hdrip : oldNode.Annotations.index env.HybridOverlayDRIP =
      newNode.Annotations.index env.HybridOverlayDRIP)
    (_hflag : env.NoHostSubnet oldNode = env.NoHostSubnet newNode) :
    nodeChanged env oldNode newNode = true := by
  rw [nodeChanged_iff]
  rcases hone with ⟨h, _, _⟩ | ⟨_, h, _⟩ | ⟨_, _, h⟩
  · exact Or.inl h
  · exact Or.inr (Or.inl h)
  · exact Or.inr (Or.inr (Or.inl h))

/-- C2, amended, at `exampleNode` and `otherSubnetNode`: the two nodes differ
in the subnet alone, and `nodeChanged` is true. -/
theorem nodeChanged_true_of_one_detail_differs_witness :
    (getNodeDetails (goEnv none) exampleNode).1 ≠ (getNodeDetails (goEnv none) otherSubnetNode).1 ∧
    nodeChanged (goEnv none) exampleNode otherSubnetNode = true :=
  ⟨by decide,
    nodeChanged_true_of_one_detail_differs (goEnv none) exampleNode otherSubnetNode
      (Or.inl ⟨by decide, by decide, by decide⟩) (by decide) (by decide)⟩

/-- C3.  `podChanged` returns false if and only if the IP lists returned by
`getPodDetails` have the same length, the entries at every index are equal as
(IP, prefix) values, and the two MACs are equal.  An entry is read through
`(*net.IPNet).String`, its text `IP/prefix`, and two entries are equal as
(IP, prefix) values when these texts are equal.  In particular a length
difference, a difference at some position, and a MAC difference each yield
true, and so do two lists with the same entries in a different order. -/
theorem podChanged_false_iff_same_ips_and_mac (env : Env) (oldPod newPod : Pod) :
    (podChanged env oldPod newPod = false ↔
      (getPodDetails env oldPod).1.length = (getPodDetails env newPod).1.length ∧
      (∀ i, i < (getPodDetails env oldPod).1.length →
        env.IPNetString ((getPodDetails env oldPod).1.getD i none) =
          env.IPNetString ((getPodDetails env newPod).1.getD i none)) ∧
      (getPodDetails env oldPod).2.1 = (getPodDetails env newPod).2.1) ∧
    ((getPodDetails env oldPod).1.length ≠ (getPodDetails env newPod).1.length →
      podChanged env oldPod newPod = true) ∧
    ((∃ i, i < (getPodDetails env oldPod).1.length ∧
        env.IPNetString ((getPodDetails env oldPod).1.getD i none) ≠
          env.IPNetString ((getPodDetails env newPod).1.getD i none)) →
      podChanged env oldPod newPod = true) ∧
    ((getPodDetails env oldPod).2.1 ≠ (getPodDetails env newPod).2.1 →
      podChanged env oldPod newPod = true) ∧
    ((getPodDetails env oldPod).1.Perm (getPodDetails env newPod).1 →
      (getPodDetails env oldPod).1.map env.IPNetString ≠
        (getPodDetails env newPod).1.map env.IPNetString →
      podChanged env oldPod newPod = true) := by
  have key := podChanged_eq_false_iff env oldPod newPod
  refine ⟨key, ?_, ?_, ?_, ?_⟩
  · intro h
    rw [← Bool.not_eq_false, key]
    exact fun hk => h hk.1
  · rintro ⟨i, hi, hd⟩
    rw [← Bool.not_eq_false, key]
    exact fun hk => hd (hk.2.1 i hi)
  · intro h
    rw [← Bool.not_eq_false, key]
    exact fun hk => h hk.2.2
  · intro hperm hne
    rw [← Bool.not_eq_false, key]
    intro hk
    obtain ⟨i, hi, hd⟩ := exists_index_of_map_ne env.IPNetString _ _ hperm.length_eq hne
    exact hd (hk.2.1 i hi)

/-- C3 on examples: `examplePod` against itself is unchanged; against
`dualStackPod`, which has one more IP, it is changed; and a pod whose two IPs
are those of `dualStackPod` in the other order is changed against it. -/
theorem podChanged_false_iff_same_ips_and_mac_witness :
    podChanged (goEnv none) examplePod examplePod = false ∧
    podChanged (goEnv none) examplePod dualStackPod = true ∧
    podChanged (goEnv none) dualStackPod
      (podWith
        "\x7b\"default\":\x7b\"ip_addresses\":[\"fd01::5/64\",\"10.1.2.5/24\"],\"mac_address\":\"0a:58:0a:01:02:05\"\x7d\x7d")
      = true :=
  ⟨((podChanged_false_iff_same_ips_and_mac (goEnv none) examplePod examplePod).1).2
      ⟨rfl, fun _ _ => rfl, rfl⟩,
    (podChanged_false_iff_same_ips_and_mac (goEnv none) examplePod dualStackPod).2.1 (by decide),
    (podChanged_false_iff_same_ips_and_mac (goEnv none) dualStackPod _).2.2.2.2
      (by decide) (by decide)⟩

/-- C4.  Both change predicates treat a transition between resolved and
unresolved as a change, and return a boolean whatever the annotations hold:
when `getNodeDetails` succeeds on exactly one of the two nodes, `nodeChanged`
is true (so it is when an update removes the DR-MAC annotation of a resolved
node); when `getPodDetails` succeeds on exactly one of the two pods,
`podChanged` is true. -/
theorem changed_of_resolution_on_one_side (env : Env) :
    (∀ oldNode newNode : Node, nodeResolves env oldNode ≠ nodeResolves env newNode →
      nodeChanged env oldNode newNode = true) ∧
    (∀ oldNode newNode : Node, nodeResolves env oldNode = true →
      newNode.Annotations env.HybridOverlayDRMAC = none →
      nodeChanged env oldNode newNode = true) ∧
    (∀ oldPod newPod : Pod, podResolves env oldPod ≠ podResolves env newPod →
      podChanged env oldPod newPod = true) := by
  have hnode : ∀ oldNode newNode : Node, nodeResolves env oldNode ≠ nodeResolves env newNode →
      nodeChanged env oldNode newNode = true := by
    intro oldNode newNode h
    rw [nodeChanged_iff]
    left
    intro heq
    apply h
    rw [Bool.eq_iff_iff, nodeResolves_iff, nodeResolves_iff, heq]
  refine ⟨hnode, ?_, ?_⟩
  · intro oldNode newNode hold hmac
    apply hnode
    rw [hold]
    intro hnew
    have hnew' := (nodeResolves_iff env newNode).1 hnew.symm
    rcases hs : getNodeSubnetAndIP env newNode with ⟨cidr, ip⟩
    by_cases hpresent : cidr ≠ none ∧ ip ≠ none
    · rw [getNodeDetails_of_no_drmac env newNode hmac (by simp [hs, hpresent.1])
        (by simp [hs, hpresent.2])] at hnew'
      exact hnew' rfl
    · rw [getNodeDetails_of_no_address env newNode (by
        rw [hs]
        by_cases hc : cidr = none
        · exact Or.inl hc
        · exact Or.inr (by simpa [hc] using hpresent))] at hnew'
      exact hnew' rfl
  · intro oldPod newPod h
    rw [← Bool.not_eq_false, podChanged_eq_false_iff]
    intro hk
    apply h
    rw [Bool.eq_iff_iff, podResolves_iff, podResolves_iff, hk.2.2]

/-- C4 on examples: `exampleNode` resolves and `noMACNode`, the same node
without its DR-MAC annotation, does not; `examplePod` resolves and
`unassignedPod` does not; the predicates are true in both directions. -/
theorem changed_of_resolution_on_one_side_witness :
    nodeResolves (goEnv none) exampleNode = true ∧
    nodeResolves (goEnv none) noMACNode = false ∧
    nodeChanged (goEnv none) exampleNode noMACNode = true ∧
    nodeChanged (goEnv none) noMACNode exampleNode = true ∧
    podResolves (goEnv none) examplePod = true ∧
    podResolves (goEnv none) unassignedPod = false ∧
    podChanged (goEnv none) unassignedPod examplePod = true ∧
    podChanged (goEnv none) examplePod unassignedPod = true :=
  ⟨by decide, by decide,
    (changed_of_resolution_on_one_side (goEnv none)).2.1 exampleNode noMACNode
      (by decide) (by decide),
    (changed_of_resolution_on_one_side (goEnv none)).1 noMACNode exampleNode (by decide),
    by decide, by decide,
    (changed_of_resolution_on_one_side (goEnv none)).2.2 unassignedPod examplePod (by decide),
    (changed_of_resolution_on_one_side (goEnv none)).2.2 examplePod unassignedPod (by decide)⟩

/-! ## Identity resolution -/

/-- C5.  `badIPNode` carries the hybrid-overlay subnet `10.1.2.0/24` and
reports the internal IP `not-an-ip`.  `getNodeSubnetAndIP` returns the subnet
together with a nil IP: a present subnet with an absent IP.  For the same
node reporting no internal IP at all it returns nil and nil. -/
theorem getNodeSubnetAndIP_partial_on_unparseable_ip :
    GetNodeInternalIP badIPNode = .ok "not-an-ip" ∧
    (goEnv none).ParseIP "not-an-ip" = none ∧
    getNodeSubnetAndIP (goEnv none) badIPNode =
      (some ⟨some [10, 1, 2, 0], some [255, 255, 255, 0]⟩, none) ∧
    getNodeSubnetAndIP (goEnv none) noInternalIPNode = (none, none) :=
  ⟨rfl, by decide, by decide, by decide⟩

/-- C6 as stated fails.  `bareNode` has no DR-MAC annotation, and
`getNodeDetails` fails on it with the missing-address error, which is not the
missing-annotation error. -/
theorem getNodeDetails_bareNode_missing_address :
    bareNode.Annotations (goEnv none).HybridOverlayDRMAC = none ∧
    getNodeDetails (goEnv none) bareNode =
      (none, none, none, some (.Errorf "missing node subnet and/or node IP" [])) ∧
    (getNodeDetails (goEnv none) bareNode).2.2.2 ≠
      some (.Errorf "missing distributed router MAC annotation" []) := by
  decide

/-- C6, amended.  For every node that has no distributed-router-MAC
annotation: when `getNodeSubnetAndIP` returns a subnet and an IP,
`getNodeDetails` fails with the missing-annotation error ("missing distributed
router MAC annotation"); when it returns no subnet or no IP, `getNodeDetails`
fails with the missing-address error ("missing node subnet and/or node IP");
and in no case does it fail with the invalid-MAC parse error. -/
theorem getNodeDetails_of_missing_drmac (env : Env) (node : Node)
    (hmac : node.Annotations env.HybridOverlayDRMAC = none) :
    ((getNodeSubnetAndIP env node).1 ≠ none ∧ (getNodeSubnetAndIP env node).2 ≠ none →
      getNodeDetails env node = (none, none, none, some errMissingDRMAC)) ∧
    ((getNodeSubnetAndIP env node).1 = none ∨ (getNodeSubnetAndIP env node).2 = none →
      getNodeDetails env node = (none, none, none, some errMissingAddress)) ∧
    (∀ drMACString err,
      (getNodeDetails env node).2.2.2 ≠ some (errInvalidDRMAC drMACString err)) := by
  refine ⟨fun h => getNodeDetails_of_no_drmac env node hmac h.1 h.2,
    getNodeDetails_of_no_address env node, ?_⟩
  intro drMACString err
  by_cases hpresent :
      (getNodeSubnetAndIP env node).1 ≠ none ∧ (getNodeSubnetAndIP env node).2 ≠ none
  · rw [getNodeDetails_of_no_drmac env node hmac hpresent.1 hpresent.2]
    simp [errMissingDRMAC, errInvalidDRMAC]
  · rw [getNodeDetails_of_no_address env node (by
      by_cases hc : (getNodeSubnetAndIP env node).1 = none
      · exact Or.inl hc
      · exact Or.inr (by simpa [hc] using hpresent))]
    simp [errMissingAddress, errInvalidDRMAC]

/-- C6, amended, at `noMACNode`: the node has a subnet and an IP and no DR-MAC
annotation, and `getNodeDetails` fails with the missing-annotation error. -/
theorem getNodeDetails_of_missing_drmac_witness :
    noMACNode.Annotations (goEnv none).HybridOverlayDRMAC = none ∧
    getNodeDetails (goEnv none) noMACNode =
      (none, none, none, some (.Errorf "missing distributed router MAC annotation" [])) :=
  ⟨by decide,
    (getNodeDetails_of_missing_drmac (goEnv none) noMACNode (by decide)).1
      ⟨by decide, by decide⟩⟩

/-- C7 as stated fails.  The two nodes carry the same primary-network
host-subnet annotation, whose text is no JSON, and differ in the value of the
hybrid-overlay subnet annotation; `getNodeSubnetAndIP` returns the
hybrid-overlay subnet of each, so its result changes with that value. -/
theorem getNodeSubnetAndIP_falls_back_on_undecodable_primary :
    (twoSubnetsNode "not-json" "10.1.2.0/24").Annotations (goEnv none).OvnNodeSubnets =
      some "not-json" ∧
    (twoSubnetsNode "not-json" "10.9.9.0/24").Annotations (goEnv none).OvnNodeSubnets =
      some "not-json" ∧
    (getNodeSubnetAndIP (goEnv none) (twoSubnetsNode "not-json" "10.1.2.0/24")).1 =
      some ⟨some [10, 1, 2, 0], some [255, 255, 255, 0]⟩ ∧
    (getNodeSubnetAndIP (goEnv none) (twoSubnetsNode "not-json" "10.9.9.0/24")).1 =
      some ⟨some [10, 9, 9, 0], some [255, 255, 255, 0]⟩ := by
  decide

/-- C7, amended.  For every node whose primary-network host-subnet annotation
yields at least one subnet for the default network (the list that
`util.ParseNodeHostSubnetAnnotation` returns is not nil) and that carries a
hybrid-overlay subnet annotation, the subnet returned by `getNodeSubnetAndIP`,
when it returns one, is the first entry of that list, and the result is the
same for every value `v` of the hybrid-overlay subnet annotation. -/
theorem getNodeSubnetAndIP_prefers_primary (env : Env) (node : Node)
    (cidr : Option net.IPNet) (rest : List (Option net.IPNet)) (v : String)
    (hkeys : env.OvnNodeSubnets ≠ env.HybridOverlayNodeSubnet)
    (hprimary : ParseNodeHostSubnetAnnotation env node env.DefaultNetworkName = cidr :: rest)
    (_hfallback : node.Annotations env.HybridOverlayNodeSubnet ≠ none) :
    (∀ subnet, (getNodeSubnetAndIP env node).1 = some subnet → cidr = some subnet) ∧
    getNodeSubnetAndIP env
        { node with Annotations := node.Annotations.set env.HybridOverlayNodeSubnet v } =
      getNodeSubnetAndIP env node := by
  have hnode : getNodeSubnetAndIP env node = getNodeSubnetAndIP.withNodeIP env node cidr := by
    unfold getNodeSubnetAndIP
    rw [hprimary]
  have hset : ParseNodeHostSubnetAnnotation env
      { node with Annotations := node.Annotations.set env.HybridOverlayNodeSubnet v }
      env.DefaultNetworkName = cidr :: rest := by
    rw [← hprimary]
    unfold ParseNodeHostSubnetAnnotation
    simp [StringMap.set, hkeys]
  constructor
  · intro subnet h
    rw [hnode] at h
    unfold getNodeSubnetAndIP.withNodeIP at h
    cases hip : GetNodeInternalIP node <;> simp [hip] at h
    exact h
  · rw [hnode]
    unfold getNodeSubnetAndIP
    rw [hset]
    rfl

/-- C7, amended, at a node with a dual-stack primary annotation: the subnet
is the first entry `10.128.0.0/23`, for the hybrid-overlay value `10.1.2.0/24`
and for the malformed value `not-a-cidr` alike. -/
theorem getNodeSubnetAndIP_prefers_primary_witness :
    (getNodeSubnetAndIP (goEnv none) (twoSubnetsNode dualStackSubnets "10.1.2.0/24")).1 =
      some ⟨some [0, 0, 0, 0, 0, 0, 0, 0, 0, 0, 255, 255, 10, 128, 0, 0],
        some [255, 255, 254, 0]⟩ ∧
    getNodeSubnetAndIP (goEnv none)
        { twoSubnetsNode dualStackSubnets "10.1.2.0/24" with
          Annotations := (twoSubnetsNode dualStackSubnets "10.1.2.0/24").Annotations.set
            (goEnv none).HybridOverlayNodeSubnet "not-a-cidr" } =
      getNodeSubnetAndIP (goEnv none) (twoSubnetsNode dualStackSubnets "10.1.2.0/24") :=
  ⟨by decide,
    (getNodeSubnetAndIP_prefers_primary (goEnv none)
      (twoSubnetsNode dualStackSubnets "10.1.2.0/24")
      (some ⟨some [0, 0, 0, 0, 0, 0, 0, 0, 0, 0, 255, 255, 10, 128, 0, 0],
        some [255, 255, 254, 0]⟩)
      [some ⟨some [253, 1, 0, 0, 0, 0, 0, 1, 0, 0, 0, 0, 0, 0, 0, 0],
        some [255, 255, 255, 255, 255, 255, 255, 255, 0, 0, 0, 0, 0, 0, 0, 0]⟩]
      "not-a-cidr" (by decide) (by decide) (by decide)).2⟩

/-- C8.  For every node, `getNodeDetails` returns either a subnet, an IP and
a MAC that are all present, with a nil error, or an error with the three
absent.  In particular every node with no primary-network annotation and a
hybrid-overlay subnet annotation that `net.ParseCIDR` refuses yields the
all-absent result with an error, and so does `notACidrNode`, whose
hybrid-overlay subnet annotation is `not-a-cidr`. -/
theorem getNodeDetails_all_or_nothing :
    (∀ (env : Env) (node : Node),
      (∃ cidr ip mac, getNodeDetails env node = (some cidr, some ip, some mac, none)) ∨
      (∃ err, getNodeDetails env node = (none, none, none, some err))) ∧
    (∀ (env : Env) (node : Node) (subnet err : String),
      node.Annotations env.OvnNodeSubnets = none →
      node.Annotations env.HybridOverlayNodeSubnet = some subnet →
      env.ParseCIDR subnet = .error err →
      getNodeDetails env node = (none, none, none, some errMissingAddress)) ∧
    notACidrNode.Annotations (goEnv none).OvnNodeSubnets = none ∧
    notACidrNode.Annotations (goEnv none).HybridOverlayNodeSubnet = some "not-a-cidr" ∧
    getNodeDetails (goEnv none) notACidrNode = (none, none, none, some errMissingAddress) := by
  refine ⟨getNodeDetails_resolved_or_error, ?_, by decide, by decide, by decide⟩
  intro env node subnet err hprimary hfallback hparse
  apply getNodeDetails_of_no_address
  left
  unfold getNodeSubnetAndIP ParseNodeHostSubnetAnnotation
  simp [hprimary, hfallback, hparse]

/-! ## Event wiring -/

/-- C9.  The pod-add callback that `NewNode` registers with node name
`nodeName`: for a pod whose `Spec.NodeName` differs from `nodeName` it returns
no error and leaves the backend and the list of calls made on it as they were;
for a pod whose `Spec.NodeName` equals `nodeName` it makes one call on the
backend, `AddPod` with that pod, and returns the result of that call. -/
theorem podAdd_calls_AddPod_for_local_pods_only {σ : Type} (c : nodeController σ)
    (nodeName : String) (pod : Pod) (w : World σ) :
    (pod.NodeName ≠ nodeName → NewNode.podAdd c nodeName (.pod pod) w = (none, w)) ∧
    (pod.NodeName = nodeName →
      (NewNode.podAdd c nodeName (.pod pod) w).1 = (c.AddPod pod w.backend).1 ∧
      (NewNode.podAdd c nodeName (.pod pod) w).2.backend = (c.AddPod pod w.backend).2 ∧
      (NewNode.podAdd c nodeName (.pod pod) w).2.calls = w.calls ++ [Call.AddPod pod]) := by
  constructor
  · intro h
    simp [NewNode.podAdd, h]
  · intro h
    simp [NewNode.podAdd, h, World.AddPod]

/-- C9 on examples, for the controller of `worker-1`: the pod scheduled to
`worker-2` leaves the backend untouched; `examplePod` and `unassignedPod`, both
on `worker-1`, are each handed to `AddPod` once, and the callback returns what
`AddPod` returned, no error for the first and the refusal for the second. -/
theorem podAdd_calls_AddPod_for_local_pods_only_witness :
    NewNode.podAdd countingBackend "worker-1" (.pod foreignPod) ⟨0, []⟩ = (none, ⟨0, []⟩) ∧
    (NewNode.podAdd countingBackend "worker-1" (.pod examplePod) ⟨0, []⟩).1 = none ∧
    (NewNode.podAdd countingBackend "worker-1" (.pod examplePod) ⟨0, []⟩).2.backend = 1 ∧
    (NewNode.podAdd countingBackend "worker-1" (.pod examplePod) ⟨0, []⟩).2.calls =
      [Call.AddPod examplePod] ∧
    (NewNode.podAdd countingBackend "worker-1" (.pod unassignedPod) ⟨0, []⟩).1 =
      some (.lib "pod has no network annotation") :=
  ⟨(podAdd_calls_AddPod_for_local_pods_only countingBackend "worker-1" foreignPod ⟨0, []⟩).1
      (by decide),
    ((podAdd_calls_AddPod_for_local_pods_only countingBackend "worker-1" examplePod ⟨0, []⟩).2
      (by decide)).1,
    ((podAdd_calls_AddPod_for_local_pods_only countingBackend "worker-1" examplePod ⟨0, []⟩).2
      (by decide)).2.1,
    ((podAdd_calls_AddPod_for_local_pods_only countingBackend "worker-1" examplePod ⟨0, []⟩).2
      (by decide)).2.2,
    ((podAdd_calls_AddPod_for_local_pods_only countingBackend "worker-1" unassignedPod
      ⟨0, []⟩).2 (by decide)).1⟩

end HybridOverlay
